import Mathlib

/-!
A shallow embedding of the FizzBuzzLang interpreter (`fbi.py`): the `VM`
class (memory stack, data-space pointer, two stored locations, instruction
pointer, label table) and the `Interpreter` dispatch (`_run_line`) and run
loop (`run_file`).

Conventions of the embedding:
* Python `int` values are Lean `Int`; list indices are `Int` and Python's
  negative-index convention is modelled by `pyIdx` / `pyGet` / `pySet`.
* Methods that can raise return `Except Err VMState`; `Err` distinguishes
  the interpreter's own `FBSyntaxError` / `FBRuntimeError` from the Python
  built-in exceptions (`TypeError`, `ZeroDivisionError`, `IndexError`,
  `ValueError`, `EOFError`) that can escape uncaught.
* Console I/O is modelled by explicit `output` / `stdin` fields on the
  state: `print` appends to `output`, `input()` pops `stdin`.
* Python built-ins `int(str)`, `float(str)`, `int(str, 2)`, `str.split()`
  and `str.strip()` are modelled for ordinary ASCII inputs (no underscore
  digit separators, no non-ASCII digits).
-/

/-- Exceptions that can be raised while interpreting: the interpreter's own
two error classes, and the Python built-in exceptions that escape uncaught. -/
inductive Err where
  | fbSyntax (token : String) (expected : String)
  | fbRuntime (msg : String)
  | typeError
  | zeroDivision
  | indexError
  | valueError
  | eofError
deriving DecidableEq, Repr

/-- The state of `VM` from `fbi.py` (fields `stack`, `sp`, `stored_sp1`,
`stored_sp2`, `ip`, `labels`), extended with explicit `output` and `stdin`
streams that model the `print` and `input` effects. -/
structure VMState where
  stack : List Int
  sp : Int
  stored_sp1 : Int
  stored_sp2 : Int
  ip : Int
  labels : List (String × Int)
  output : List String
  stdin : List String
deriving DecidableEq, Repr

deriving instance DecidableEq for Except

/-- `VM.__init__`: stack `[0]`, all pointers 0, empty label table. -/
def initVM : VMState :=
  { stack := [0], sp := 0, stored_sp1 := 0, stored_sp2 := 0, ip := 0,
    labels := [], output := [], stdin := [] }

/-- Resolve a Python list index (negative indices count from the end);
`none` models an `IndexError`. -/
def pyIdx (n : Nat) (i : Int) : Option Nat :=
  if 0 ≤ i then
    if i < (n : Int) then some i.toNat else none
  else
    if 0 ≤ i + (n : Int) then some (i + (n : Int)).toNat else none

/-- Python `l[i]` on a list of integers. -/
def pyGet (l : List Int) (i : Int) : Except Err Int :=
  match pyIdx l.length i with
  | some k => .ok (l.getD k 0)
  | none => .error .indexError

/-- Python `l[i]` on a list of strings (used for program lines). -/
def pyGetStr (l : List String) (i : Int) : Except Err String :=
  match pyIdx l.length i with
  | some k => .ok (l.getD k "")
  | none => .error .indexError

/-- Python `l[i] = v` on a list of integers. -/
def pySet (l : List Int) (i : Int) (v : Int) : Except Err (List Int) :=
  match pyIdx l.length i with
  | some k => .ok (l.set k v)
  | none => .error .indexError

namespace VM

/-- `VM.ds_pointer_forward`: `sp += 1`, append a zero when the pointer
moved past the end, `ip += 1`. -/
def ds_pointer_forward (s : VMState) : VMState :=
  let sp := s.sp + 1
  let stack := if sp = (s.stack.length : Int) then s.stack ++ [0] else s.stack
  { s with sp := sp, stack := stack, ip := s.ip + 1 }

/-- `VM.ds_pointer_backward`: `sp = max(sp - 1, 0)`, `ip += 1`. -/
def ds_pointer_backward (s : VMState) : VMState :=
  { s with sp := max (s.sp - 1) 0, ip := s.ip + 1 }

/-- `VM.ds_duplicate_element`: `ds_pointer_forward()` (which already does
`ip += 1`), then `stack[sp] = stack[sp-1]`, then `ip += 1` again. -/
def ds_duplicate_element (s : VMState) : Except Err VMState :=
  let s1 := ds_pointer_forward s
  match pyGet s1.stack (s1.sp - 1) with
  | .error e => .error e
  | .ok v =>
    match pySet s1.stack s1.sp v with
    | .error e => .error e
    | .ok stack => .ok { s1 with stack := stack, ip := s1.ip + 1 }

/-- `VM.ds_add`: the addend list `[1, stack[stored_sp1], stack[stored_sp2]]`
is built eagerly (both register reads happen regardless of the id), one
entry is selected, then `stack[sp] += addend` and `ip += 1`. -/
def ds_add (stored_location_id : Fin 3) (s : VMState) : Except Err VMState :=
  match pyGet s.stack s.stored_sp1 with
  | .error e => .error e
  | .ok a1 =>
    match pyGet s.stack s.stored_sp2 with
    | .error e => .error e
    | .ok a2 =>
      let addend := [1, a1, a2].getD stored_location_id.val 0
      match pyGet s.stack s.sp with
      | .error e => .error e
      | .ok cur =>
        match pySet s.stack s.sp (cur + addend) with
        | .error e => .error e
        | .ok stack => .ok { s with stack := stack, ip := s.ip + 1 }

/-- `VM.ds_subtract`: same shape as `ds_add` with subtraction. -/
def ds_subtract (stored_location_id : Fin 3) (s : VMState) : Except Err VMState :=
  match pyGet s.stack s.stored_sp1 with
  | .error e => .error e
  | .ok a1 =>
    match pyGet s.stack s.stored_sp2 with
    | .error e => .error e
    | .ok a2 =>
      let subtrahend := [1, a1, a2].getD stored_location_id.val 0
      match pyGet s.stack s.sp with
      | .error e => .error e
      | .ok cur =>
        match pySet s.stack s.sp (cur - subtrahend) with
        | .error e => .error e
        | .ok stack => .ok { s with stack := stack, ip := s.ip + 1 }

/-- `VM.ds_modulus`: `ds_pointer_forward()` first, then the divisor list
`[stack[sp-2], stack[stored_sp1], stack[stored_sp2]]` is built eagerly and
one entry selected, then `stack[sp] = stack[sp-1] % divisor` (Python `%`
is floored modulus, `Int.fmod`; divisor 0 raises `ZeroDivisionError`),
then `ip += 1` again. -/
def ds_modulus (stored_location_id : Fin 3) (s : VMState) : Except Err VMState :=
  let s1 := ds_pointer_forward s
  match pyGet s1.stack (s1.sp - 2) with
  | .error e => .error e
  | .ok d0 =>
    match pyGet s1.stack s1.stored_sp1 with
    | .error e => .error e
    | .ok d1 =>
      match pyGet s1.stack s1.stored_sp2 with
      | .error e => .error e
      | .ok d2 =>
        let divisor := [d0, d1, d2].getD stored_location_id.val 0
        match pyGet s1.stack (s1.sp - 1) with
        | .error e => .error e
        | .ok lhs =>
          if divisor = 0 then .error .zeroDivision
          else
            match pySet s1.stack s1.sp (Int.fmod lhs divisor) with
            | .error e => .error e
            | .ok stack => .ok { s1 with stack := stack, ip := s1.ip + 1 }

/-- `VM.ds_store`: `stored_sp1 = sp` when the id is 1, `stored_sp2 = sp`
when it is 2, nothing otherwise; always `ip += 1`. -/
def ds_store (stored_location_id : Nat) (s : VMState) : VMState :=
  if stored_location_id = 1 then
    { s with stored_sp1 := s.sp, ip := s.ip + 1 }
  else if stored_location_id = 2 then
    { s with stored_sp2 := s.sp, ip := s.ip + 1 }
  else
    { s with ip := s.ip + 1 }

/-- `VM.ds_move_to`: `sp = stored_sp1` when the id is 1, `sp = stored_sp2`
when it is 2, nothing otherwise; always `ip += 1`. -/
def ds_move_to (stored_location_id : Nat) (s : VMState) : VMState :=
  if stored_location_id = 1 then
    { s with sp := s.stored_sp1, ip := s.ip + 1 }
  else if stored_location_id = 2 then
    { s with sp := s.stored_sp2, ip := s.ip + 1 }
  else
    { s with ip := s.ip + 1 }

end VM

/-- Python `str` whitespace (the characters `str.split()` and `str.strip()`
treat as separators, restricted to ASCII). -/
def isPySpace (c : Char) : Bool :=
  c == ' ' || c == '\t' || c == '\n' || c == '\x0d' || c == '\x0b' || c == '\x0c'

/-- Models Python `text.strip()` on ASCII input, as a character list. -/
def stripped (text : String) : List Char :=
  ((text.toList.dropWhile isPySpace).reverse.dropWhile isPySpace).reverse

/-- Whether a stripped line starts with the comment marker `//`. -/
def startsComment : List Char → Bool
  | '/' :: '/' :: _ => true
  | _ => false

/-- Helper for `pySplitTokens`: accumulates the current token (reversed). -/
def tokenizeAux : List Char → List Char → List String
  | [], acc => if acc.isEmpty then [] else [String.mk acc.reverse]
  | c :: cs, acc =>
    if isPySpace c then
      if acc.isEmpty then tokenizeAux cs [] else String.mk acc.reverse :: tokenizeAux cs []
    else tokenizeAux cs (c :: acc)

/-- Models Python `line.split()`: split on whitespace runs, no empty tokens. -/
def pySplitTokens (line : String) : List String :=
  tokenizeAux line.toList []

/-- Decimal value of a nonempty all-digit character list; `none` otherwise. -/
def digitsVal (cs : List Char) : Option Nat :=
  if cs ≠ [] ∧ cs.all Char.isDigit then
    some (cs.foldl (fun acc c => 10 * acc + (c.toNat - 48)) 0)
  else none

/-- Models Python `int(text)` for ordinary ASCII inputs: strip whitespace,
optional sign, nonempty digit run. `none` models a `ValueError`. -/
def pyParseInt (text : String) : Option Int :=
  match stripped text with
  | '+' :: rest => (digitsVal rest).map (fun n => (n : Int))
  | '-' :: rest => (digitsVal rest).map (fun n => -(n : Int))
  | cs => (digitsVal cs).map (fun n => (n : Int))

/-- Split a character list at the first character satisfying `p`, dropping
that character; `none` when no character satisfies `p`. -/
def breakAtPred (p : Char → Bool) : List Char → Option (List Char × List Char)
  | [] => none
  | c :: cs =>
    if p c then some ([], cs)
    else
      match breakAtPred p cs with
      | some (a, b) => some (c :: a, b)
      | none => none

/-- Nonempty run of ASCII digits. -/
def digitsOnly (cs : List Char) : Bool :=
  (!cs.isEmpty) && cs.all Char.isDigit

/-- Valid float mantissa: digits, digits-dot, digits-dot-digits or
dot-digits. -/
def mantissaOk (cs : List Char) : Bool :=
  match breakAtPred (fun c => c == '.') cs with
  | none => digitsOnly cs
  | some (a, b) =>
    if b.contains '.' then false
    else if digitsOnly a then b.isEmpty || digitsOnly b
    else a.isEmpty && digitsOnly b

/-- Models Python `float(text)` succeeding, for ordinary ASCII inputs:
strip, optional sign, then a mantissa with optional exponent, or one of
inf / infinity / nan case-insensitively. -/
def pyFloatOk (text : String) : Bool :=
  let cs := stripped text
  let body :=
    match cs with
    | '+' :: rest => rest
    | '-' :: rest => rest
    | _ => cs
  let lower := body.map Char.toLower
  if lower = ['i', 'n', 'f'] ∨ lower = ['i', 'n', 'f', 'i', 'n', 'i', 't', 'y'] ∨
      lower = ['n', 'a', 'n'] then true
  else
    match breakAtPred (fun c => c == 'e' || c == 'E') body with
    | none => mantissaOk body
    | some (m, ex) =>
      let exBody :=
        match ex with
        | '+' :: rest => rest
        | '-' :: rest => rest
        | _ => ex
      mantissaOk m && digitsOnly exBody

/-- Models Python `int(s, 2)` on the digit strings the interpreter builds:
nonempty strings of 0/1 convert, anything else raises `ValueError`. -/
def pyIntBase2 (s : String) : Except Err Int :=
  let cs := s.toList
  if (!cs.isEmpty) && cs.all (fun c => c == '0' || c == '1') then
    .ok ((cs.foldl (fun acc c => 2 * acc + (if c == '1' then 1 else 0)) 0 : Nat) : Int)
  else .error .valueError

namespace VM

/-- `VM.io_print_value`: the list `[stack[sp], stack[stored_sp1],
stack[stored_sp2]]` is built eagerly, one entry selected and printed with a
trailing newline; `ip += 1`. -/
def io_print_value (stored_location_id : Fin 3) (s : VMState) : Except Err VMState :=
  match pyGet s.stack s.sp with
  | .error e => .error e
  | .ok v0 =>
    match pyGet s.stack s.stored_sp1 with
    | .error e => .error e
    | .ok v1 =>
      match pyGet s.stack s.stored_sp2 with
      | .error e => .error e
      | .ok v2 =>
        let value := [v0, v1, v2].getD stored_location_id.val 0
        .ok { s with output := s.output ++ [toString value ++ "\n"], ip := s.ip + 1 }

/-- `VM.io_print_character`: same selection as `io_print_value`, then
`chr(value)` (ValueError outside the Unicode range) printed without a
newline; `ip += 1`. -/
def io_print_character (stored_location_id : Fin 3) (s : VMState) : Except Err VMState :=
  match pyGet s.stack s.sp with
  | .error e => .error e
  | .ok v0 =>
    match pyGet s.stack s.stored_sp1 with
    | .error e => .error e
    | .ok v1 =>
      match pyGet s.stack s.stored_sp2 with
      | .error e => .error e
      | .ok v2 =>
        let value := [v0, v1, v2].getD stored_location_id.val 0
        if value < 0 ∨ (1114112 : Int) ≤ value then .error .valueError
        else
          .ok { s with output := s.output ++ [String.singleton (Char.ofNat value.toNat)],
                       ip := s.ip + 1 }

/-- `VM.io_character_input`: read one line (`EOFError` when the input
stream is exhausted); `int(...)` parse stores the integer, else a
successful `float(...)` parse stores 0, else a single-character line
stores its code point and anything else stores 0; result goes to
`stack[sp]`, then `ip += 1`. -/
def io_character_input (s : VMState) : Except Err VMState :=
  match s.stdin with
  | [] => .error .eofError
  | user_input :: rest =>
    let val : Int :=
      match pyParseInt user_input with
      | some n => n
      | none =>
        if pyFloatOk user_input then 0
        else if user_input.length = 1 then ((user_input.toList.getD 0 ' ').toNat : Int)
        else 0
    match pySet s.stack s.sp val with
    | .error e => .error e
    | .ok stack => .ok { s with stack := stack, stdin := rest, ip := s.ip + 1 }

/-- `VM.io_store_binary`: `stack[sp] = int(binary_input, 2)`, `ip += 1`. -/
def io_store_binary (binary_input : String) (s : VMState) : Except Err VMState :=
  match pyIntBase2 binary_input with
  | .error e => .error e
  | .ok v =>
    match pySet s.stack s.sp v with
    | .error e => .error e
    | .ok stack => .ok { s with stack := stack, ip := s.ip + 1 }

/-- `VM.fc_create_label`: record the current `ip` under the label unless
the label already exists (an attempt to override is silently ignored);
`ip += 1`. -/
def fc_create_label (label : String) (s : VMState) : VMState :=
  let labels :=
    if (s.labels.lookup label).isNone then (label, s.ip) :: s.labels else s.labels
  { s with labels := labels, ip := s.ip + 1 }

/-- `VM.fc_jump`: `FBRuntimeError` naming the label when it is undefined,
otherwise `ip = labels[label]`. -/
def fc_jump (label : String) (s : VMState) : Except Err VMState :=
  match s.labels.lookup label with
  | none => .error (.fbRuntime ("Jump attempt to undefined label " ++ label))
  | some target => .ok { s with ip := target }

/-- `VM.fc_jump_if_zero`: jump when `stack[sp] == 0`, else `ip += 1`. -/
def fc_jump_if_zero (label : String) (s : VMState) : Except Err VMState :=
  match pyGet s.stack s.sp with
  | .error e => .error e
  | .ok v => if v = 0 then fc_jump label s else .ok { s with ip := s.ip + 1 }

/-- `VM.fc_jump_if_non_zero`: jump when `stack[sp] != 0`, else `ip += 1`. -/
def fc_jump_if_non_zero (label : String) (s : VMState) : Except Err VMState :=
  match pyGet s.stack s.sp with
  | .error e => .error e
  | .ok v => if v ≠ 0 then fc_jump label s else .ok { s with ip := s.ip + 1 }

end VM

/-- The token-to-number dictionary used for both mode and submode in
`Interpreter._run_line`: FIZZ 1, BUZZ 2, FIZZBUZZ 3 (`.get` returns `none`
for anything else). -/
def vocabNum (t : String) : Option Nat :=
  if t = "FIZZ" then some 1
  else if t = "BUZZ" then some 2
  else if t = "FIZZBUZZ" then some 3
  else none

/-- The argument-validation loop of `Interpreter._run_line`: every argument
must be a vocabulary token, except the final argument of a flow-control
label-declare or jump line (`mode == 3 and submode in (1, 2)`), which is a
free-form label. `i` is the current index, `n` the total argument count. -/
def checkArgs (mode submode : Nat) (n : Nat) : Nat → List String → Except Err Unit
  | _, [] => .ok ()
  | i, arg :: rest =>
    if ¬(mode = 3 ∧ (submode = 1 ∨ submode = 2) ∧ i = n - 1) ∧ vocabNum arg = none then
      .error (.fbSyntax arg "argument")
    else checkArgs mode submode n (i + 1) rest

/-- The token-classification and dispatch chain of `Interpreter._run_line`
after the comment/blank check: classify mode and submode (`FBSyntaxError`
for an unrecognized token), validate the arguments, then run the chain of
`if tokens == ...` dispatch tests in source order. The unconditional-jump
branch calls `fc_jump()` without its required `label` argument, which in
Python raises `TypeError` before the label table is ever consulted. -/
def run_tokens (tokens : List String) (s : VMState) : Except Err VMState := do
  let t0 ← match tokens.head? with
    | none => .error Err.indexError
    | some t => .ok t
  let mode ← match vocabNum t0 with
    | none => .error (Err.fbSyntax t0 "mode")
    | some m => .ok m
  let t1 ← match tokens.getD 1 "" , tokens.length with
    | _, 0 => .error Err.indexError
    | _, 1 => .error Err.indexError
    | t, _ => .ok t
  let submode ← match vocabNum t1 with
    | none => .error (Err.fbSyntax t1 "submode")
    | some m => .ok m
  let args := tokens.drop 2
  checkArgs mode submode args.length 0 args
  -- Data-space manipulation operations:
  let s ← if tokens = ["FIZZ", "FIZZ", "FIZZ"] then pure (VM.ds_pointer_forward s) else pure s
  let s ← if tokens = ["FIZZ", "FIZZ", "BUZZ"] then pure (VM.ds_pointer_backward s) else pure s
  let s ← if tokens = ["FIZZ", "FIZZ", "FIZZBUZZ"] then VM.ds_duplicate_element s else pure s
  let s ← if tokens = ["FIZZ", "BUZZ", "FIZZ"] then VM.ds_add 0 s else pure s
  let s ← if tokens = ["FIZZ", "BUZZ", "FIZZ", "FIZZ"] then VM.ds_add 1 s else pure s
  let s ← if tokens = ["FIZZ", "BUZZ", "FIZZ", "BUZZ"] then VM.ds_add 2 s else pure s
  let s ← if tokens = ["FIZZ", "BUZZ", "BUZZ"] then VM.ds_subtract 0 s else pure s
  let s ← if tokens = ["FIZZ", "BUZZ", "BUZZ", "FIZZ"] then VM.ds_subtract 1 s else pure s
  let s ← if tokens = ["FIZZ", "BUZZ", "BUZZ", "BUZZ"] then VM.ds_subtract 2 s else pure s
  let s ← if tokens = ["FIZZ", "BUZZ", "FIZZBUZZ"] then VM.ds_modulus 0 s else pure s
  let s ← if tokens = ["FIZZ", "BUZZ", "FIZZBUZZ", "FIZZ"] then VM.ds_modulus 1 s else pure s
  let s ← if tokens = ["FIZZ", "BUZZ", "FIZZBUZZ", "BUZZ"] then VM.ds_modulus 2 s else pure s
  let s ← if tokens = ["FIZZ", "FIZZBUZZ", "FIZZ"] then pure (VM.ds_store 1 s) else pure s
  let s ← if tokens = ["FIZZ", "FIZZBUZZ", "BUZZ"] then pure (VM.ds_store 2 s) else pure s
  let s ← if tokens = ["FIZZ", "FIZZBUZZ", "FIZZBUZZ", "FIZZ"] then pure (VM.ds_move_to 1 s) else pure s
  let s ← if tokens = ["FIZZ", "FIZZBUZZ", "FIZZBUZZ", "BUZZ"] then pure (VM.ds_move_to 2 s) else pure s
  -- Input/Output operations
  let s ← if tokens = ["BUZZ", "FIZZ"] then VM.io_print_value 0 s else pure s
  let s ← if tokens = ["BUZZ", "FIZZ", "FIZZ"] then VM.io_print_value 1 s else pure s
  let s ← if tokens = ["BUZZ", "FIZZ", "BUZZ"] then VM.io_print_value 2 s else pure s
  let s ← if tokens = ["BUZZ", "BUZZ"] then VM.io_print_character 0 s else pure s
  let s ← if tokens = ["BUZZ", "BUZZ", "FIZZ"] then VM.io_print_character 1 s else pure s
  let s ← if tokens = ["BUZZ", "BUZZ", "BUZZ"] then VM.io_print_character 2 s else pure s
  let s ← if tokens = ["BUZZ", "FIZZBUZZ"] then VM.io_character_input s else pure s
  let s ← if tokens.take 2 = ["BUZZ", "FIZZBUZZ"] ∧ 2 < tokens.length then
      VM.io_store_binary
        (String.mk (((tokens.drop 2).drop 1).map (fun arg => if arg = "FIZZ" then '0' else '1'))) s
    else pure s
  -- Flow Control operations
  let s ← if tokens.take 2 = ["FIZZBUZZ", "FIZZ"] ∧ tokens.length = 3 then
      pure (VM.fc_create_label ((tokens.drop 2).getD 0 "") s)
    else pure s
  let s ← if tokens.take 3 = ["FIZZBUZZ", "BUZZ", "FIZZ"] ∧ tokens.length = 4 then
      VM.fc_jump_if_non_zero ((tokens.drop 2).getD 1 "") s
    else pure s
  let s ← if tokens.take 3 = ["FIZZBUZZ", "BUZZ", "BUZZ"] ∧ tokens.length = 4 then
      VM.fc_jump_if_zero ((tokens.drop 2).getD 1 "") s
    else pure s
  let s ← if tokens.take 3 = ["FIZZBUZZ", "BUZZ", "FIZZBUZZ"] ∧ tokens.length = 4 then
      (.error Err.typeError : Except Err VMState)
    else pure s
  let s ← if tokens = ["FIZZBUZZ", "FIZZBUZZ"] then pure { s with ip := (-1 : Int) } else pure s
  return s

/-- `Interpreter._run_line`: comment (`//`) and blank lines only advance
`ip`; any other line is split into tokens and dispatched. -/
def run_line (line : String) (s : VMState) : Except Err VMState :=
  if startsComment (stripped line) ∨ stripped line = [] then
    .ok { s with ip := s.ip + 1 }
  else run_tokens (pySplitTokens line) s

/-- Result of one iteration of the `while` loop in
`Interpreter.run_file`. -/
inductive StepResult where
  | halted
  | next (s : VMState)
  | failed (e : Err)
deriving DecidableEq, Repr

/-- One iteration of the `while` loop in `Interpreter.run_file`: `ip == -1`
stops cleanly; `ip == len(code)` raises the premature-end
`FBRuntimeError`; otherwise the line `code[ip]` is fetched (Python
indexing, so an `ip` beyond the end raises `IndexError`) and executed. -/
def run_step (code : List String) (s : VMState) : StepResult :=
  if s.ip = -1 then .halted
  else if s.ip = (code.length : Int) then
    .failed (.fbRuntime "Unexpected end of program before FIZZBUZZ FIZZBUZZ")
  else
    match pyGetStr code s.ip with
    | .error e => .failed e
    | .ok line =>
      match run_line line s with
      | .error e => .failed e
      | .ok s1 => .next s1

/-- The dispatched instructions that are neither a jump, nor the modulus
operation, nor halt, each paired with the argument its dispatch line in
`Interpreter._run_line` passes to the `VM` method. -/
inductive SimpleOp where
  | forward
  | backward
  | duplicate
  | add (id : Fin 3)
  | subtract (id : Fin 3)
  | store (id : Nat)
  | seek (id : Nat)
  | printValue (id : Fin 3)
  | printChar (id : Fin 3)
  | charInput
  | storeBinary (digits : String)
  | createLabel (label : String)
deriving DecidableEq, Repr

/-- Execute one non-jump, non-modulus, non-halt instruction by the `VM`
method its dispatch line calls. -/
def execSimpleOp : SimpleOp → VMState → Except Err VMState
  | .forward, s => .ok (VM.ds_pointer_forward s)
  | .backward, s => .ok (VM.ds_pointer_backward s)
  | .duplicate, s => VM.ds_duplicate_element s
  | .add id, s => VM.ds_add id s
  | .subtract id, s => VM.ds_subtract id s
  | .store id, s => .ok (VM.ds_store id s)
  | .seek id, s => .ok (VM.ds_move_to id s)
  | .printValue id, s => VM.io_print_value id s
  | .printChar id, s => VM.io_print_character id s
  | .charInput, s => VM.io_character_input s
  | .storeBinary digits, s => VM.io_store_binary digits s
  | .createLabel label, s => .ok (VM.fc_create_label label s)

/-- The tape/register operations of the state store: advance, retreat,
duplicate, add, subtract, modulus, store, seek. -/
inductive DsOp where
  | forward
  | backward
  | duplicate
  | add (id : Fin 3)
  | subtract (id : Fin 3)
  | modulus (id : Fin 3)
  | store (id : Nat)
  | seek (id : Nat)
deriving DecidableEq, Repr

/-- Execute one tape/register operation by its `VM` method. -/
def execDsOp : DsOp → VMState → Except Err VMState
  | .forward, s => .ok (VM.ds_pointer_forward s)
  | .backward, s => .ok (VM.ds_pointer_backward s)
  | .duplicate, s => VM.ds_duplicate_element s
  | .add id, s => VM.ds_add id s
  | .subtract id, s => VM.ds_subtract id s
  | .modulus id, s => VM.ds_modulus id s
  | .store id, s => .ok (VM.ds_store id s)
  | .seek id, s => .ok (VM.ds_move_to id s)

/-- Execute a sequence of tape/register operations, stopping at the first
raised exception. -/
def execSeq : List DsOp → VMState → Except Err VMState
  | [], s => .ok s
  | op :: ops, s =>
    match execDsOp op s with
    | .error e => .error e
    | .ok s1 => execSeq ops s1

/-- The data-space well-formedness invariant: the data pointer and both
stored locations are in bounds of the stack. -/
def DsInv (s : VMState) : Prop :=
  0 ≤ s.sp ∧ s.sp < (s.stack.length : Int) ∧
  0 ≤ s.stored_sp1 ∧ s.stored_sp1 < (s.stack.length : Int) ∧
  0 ≤ s.stored_sp2 ∧ s.stored_sp2 < (s.stack.length : Int)

/-- The unsigned value of a run of bit tokens, FIZZ counting as digit 0
and any other token as digit 1 (the mapping `_run_line` uses when it
builds the binary digit string). -/
def binListVal (ts : List String) : Nat :=
  ts.foldl (fun acc t => 2 * acc + (if t = "FIZZ" then 0 else 1)) 0

/-- The read-value result as the spec words it: the integer value if the
text parses as an integer; 0 if it parses as a float-looking value; the
code point if the text is exactly one character; and 0 otherwise. -/
def readValueSpec (text : String) : Int :=
  match pyParseInt text with
  | some n => n
  | none =>
    if pyFloatOk text then 0
    else if text.length = 1 then ((text.toList.getD 0 ' ').toNat : Int)
    else 0

/-- Whether an exception is the interpreter's own runtime/execution error
class (`FBRuntimeError`), as opposed to an uncaught Python built-in. -/
def isFBRuntime : Err → Bool
  | .fbRuntime _ => true
  | _ => false

/-! ## Helper lemmas -/

theorem pyIdx_pos {n : Nat} {i : Int} (h0 : 0 ≤ i) (h1 : i < (n : Int)) :
    pyIdx n i = some i.toNat := by
  unfold pyIdx
  rw [if_pos h0, if_pos h1]

theorem pySet_ok {l : List Int} {i : Int} (v : Int) (h0 : 0 ≤ i)
    (h1 : i < (l.length : Int)) : pySet l i v = .ok (l.set i.toNat v) := by
  unfold pySet
  rw [pyIdx_pos h0 h1]

theorem pySet_length {l l' : List Int} {i : Int} {v : Int}
    (h : pySet l i v = .ok l') : l'.length = l.length := by
  unfold pySet at h
  cases hk : pyIdx l.length i <;> rw [hk] at h
  · simp at h
  · injection h with h
    subst h
    simp

theorem checkArgs_all_vocab (mode submode n : Nat) :
    ∀ (i : Nat) (args : List String), (∀ x ∈ args, vocabNum x ≠ none) →
      checkArgs mode submode n i args = .ok () := by
  intro i args
  induction args generalizing i with
  | nil => intro _; rfl
  | cons a rest ih =>
    intro hall
    unfold checkArgs
    rw [if_neg]
    · exact ih (i + 1) (fun x hx => hall x (List.mem_cons_of_mem a hx))
    · intro hcond
      exact hall a (List.mem_cons_self a rest) hcond.2

/-! ## C1 -/

/-- C1: the claim is right about the intended semantics but wrong about the
code: executing an unconditional-jump line (FIZZBUZZ BUZZ FIZZBUZZ plus a
label) never consults the label table at all, because the dispatch line
calls `fc_jump()` without its required label argument; Python raises
`TypeError` in every state, whether or not the label is declared. -/
theorem C1_unconditional_jump_line_raises_type_error (label : String) (s : VMState) :
    run_tokens ["FIZZBUZZ", "BUZZ", "FIZZBUZZ", label] s = .error .typeError := rfl

/-! ## C10 -/

/-- C10: the two-token line FIZZ FIZZ passes syntax classification (mode
FIZZ, submode FIZZ, no arguments) yet matches no dispatch pattern, so
executing it returns the state completely unchanged, and the run loop
fetches the very same line again on the next step. -/
theorem C10_unmatched_line_leaves_state_unchanged (code : List String) (s : VMState)
    (h1 : s.ip ≠ -1) (h2 : s.ip ≠ (code.length : Int))
    (h3 : pyGetStr code s.ip = .ok "FIZZ FIZZ") :
    run_line "FIZZ FIZZ" s = .ok s ∧ run_step code s = .next s := by
  have hrl : run_line "FIZZ FIZZ" s = .ok s := rfl
  refine ⟨hrl, ?_⟩
  simp [run_step, h1, h2, h3, hrl]

/-- C10 witness: a one-line program consisting of FIZZ FIZZ steps from the
initial state back to the initial state. -/
theorem C10_unmatched_line_witness :
    run_line "FIZZ FIZZ" initVM = .ok initVM ∧
    run_step ["FIZZ FIZZ"] initVM = .next initVM :=
  C10_unmatched_line_leaves_state_unchanged ["FIZZ FIZZ"] initVM
    (by decide) (by decide) (by decide)

/-! ## C2 -/

/-- C2 counterexample: the duplicate instruction FIZZ FIZZ FIZZBUZZ does not
increment the instruction pointer by exactly 1: from the initial state
(ip 0) it leaves ip at 2, because `ds_duplicate_element` calls
`ds_pointer_forward` (which already does `ip += 1`) and then increments
`ip` again itself. -/
theorem C2_duplicate_ip_counterexample :
    VM.ds_duplicate_element initVM = .ok { initVM with sp := 1, stack := [0, 0], ip := 2 } ∧
    initVM.ip = 0 ∧ (2 : Int) ≠ initVM.ip + 1 := by decide

/-- C2 amended: every dispatched instruction that is not a jump, not the
modulus operation and not halt increments the instruction pointer by
exactly 1 — except the duplicate instruction, which increments it by
exactly 2. -/
theorem C2_simple_op_ip_increment (op : SimpleOp) (s s' : VMState)
    (h : execSimpleOp op s = .ok s') :
    s'.ip = s.ip + (if op = SimpleOp.duplicate then 2 else 1) := by
  cases op <;>
    simp only [execSimpleOp, VM.ds_pointer_forward, VM.ds_pointer_backward,
      VM.ds_duplicate_element, VM.ds_add, VM.ds_subtract, VM.ds_store, VM.ds_move_to,
      VM.io_print_value, VM.io_print_character, VM.io_character_input, VM.io_store_binary,
      VM.fc_create_label] at h <;>
    (iterate 6 (try (split at h; · simp at h))) <;>
    (try cases h) <;>
    (try split_ifs) <;>
    (try simp) <;>
    (try omega) <;>
    try contradiction

/-- C2 witness: the amended statement at two concrete instructions — the
duplicate instruction moves ip from 0 to 2 and the advance instruction
moves ip from 0 to 1. -/
theorem C2_simple_op_ip_increment_witness :
    ({ initVM with sp := 1, stack := [0, 0], ip := 2 } : VMState).ip =
      initVM.ip + (if SimpleOp.duplicate = SimpleOp.duplicate then 2 else 1) ∧
    ({ initVM with sp := 1, stack := [0, 0], ip := 1 } : VMState).ip =
      initVM.ip + (if SimpleOp.forward = SimpleOp.duplicate then 2 else 1) :=
  ⟨C2_simple_op_ip_increment SimpleOp.duplicate initVM _ (by decide),
   C2_simple_op_ip_increment SimpleOp.forward initVM _ (by decide)⟩

/-! ## C3 -/

/-- C3 counterexample: the run loop checks `ip == len(code)`, not `ip >=`.
The one-line program FIZZ FIZZ FIZZBUZZ (duplicate) moves ip from 0
straight to 2, skipping over `len(code) = 1`; the next step then attempts
the fetch `code[2]` and dies with `IndexError` instead of raising the
premature-end `FBRuntimeError`. -/
theorem C3_ip_beyond_end_counterexample :
    run_step ["FIZZ FIZZ FIZZBUZZ"] initVM =
      .next { initVM with sp := 1, stack := [0, 0], ip := 2 } ∧
    run_step ["FIZZ FIZZ FIZZBUZZ"] { initVM with sp := 1, stack := [0, 0], ip := 2 } =
      .failed .indexError ∧
    isFBRuntime .indexError = false := by decide

/-- C3 amended: with ip not the halt sentinel and at or past the end of
the program, the run loop raises the premature-end `FBRuntimeError` only
when ip equals the line count exactly; when ip is strictly beyond it, the
loop attempts the fetch and raises `IndexError` instead. -/
theorem C3_end_of_program_behaviour (code : List String) (s : VMState)
    (h1 : s.ip ≠ -1) (h2 : (code.length : Int) ≤ s.ip) :
    run_step code s =
      .failed (if s.ip = (code.length : Int) then
        Err.fbRuntime "Unexpected end of program before FIZZBUZZ FIZZBUZZ"
      else Err.indexError) := by
  unfold run_step
  rw [if_neg h1]
  by_cases h3 : s.ip = (code.length : Int)
  · rw [if_pos h3, if_pos h3]
  · rw [if_neg h3, if_neg h3]
    have hget : pyGetStr code s.ip = .error .indexError := by
      unfold pyGetStr pyIdx
      have h0 : 0 ≤ s.ip := by omega
      have hlt : ¬s.ip < (code.length : Int) := by omega
      rw [if_pos h0, if_neg hlt]
    rw [hget]

/-- C3 witness: the amended statement at two concrete inputs — the empty
program with ip 0 raises the premature-end error, and a one-line program
with ip 2 raises `IndexError` from the fetch. -/
theorem C3_end_of_program_behaviour_witness :
    run_step [] initVM =
      .failed (if (initVM.ip : Int) = (([] : List String).length : Int) then
        Err.fbRuntime "Unexpected end of program before FIZZBUZZ FIZZBUZZ"
      else Err.indexError) ∧
    run_step ["FIZZ FIZZ FIZZBUZZ"] { initVM with ip := 2 } =
      .failed (if (2 : Int) = ((["FIZZ FIZZ FIZZBUZZ"] : List String).length : Int) then
        Err.fbRuntime "Unexpected end of program before FIZZBUZZ FIZZBUZZ"
      else Err.indexError) :=
  ⟨C3_end_of_program_behaviour [] initVM (by decide) (by decide),
   C3_end_of_program_behaviour ["FIZZ FIZZ FIZZBUZZ"] { initVM with ip := 2 }
     (by decide) (by decide)⟩

/-! ## C4 -/

/-- C4 counterexample: modulus with resolved divisor 0 (from the initial
state the default divisor `stack[sp-2]` resolves to 0) raises the Python
built-in `ZeroDivisionError`, which is not the interpreter's declared
runtime/execution error kind (`FBRuntimeError`) — `ds_modulus` never
catches or wraps it. -/
theorem C4_modulus_zero_divisor_counterexample :
    VM.ds_modulus 0 initVM = .error .zeroDivision ∧
    isFBRuntime .zeroDivision = false := by decide

/-- C4 amended: whenever the resolved divisor is 0, the modulus operation
raises uncaught `ZeroDivisionError` (not the core's `FBRuntimeError`) and
never computes or stores a result. -/
theorem C4_modulus_zero_divisor_raises (id : Fin 3) (s : VMState) (d0 d1 d2 lhs : Int)
    (h0 : pyGet (VM.ds_pointer_forward s).stack ((VM.ds_pointer_forward s).sp - 2) = .ok d0)
    (h1 : pyGet (VM.ds_pointer_forward s).stack (VM.ds_pointer_forward s).stored_sp1 = .ok d1)
    (h2 : pyGet (VM.ds_pointer_forward s).stack (VM.ds_pointer_forward s).stored_sp2 = .ok d2)
    (hl : pyGet (VM.ds_pointer_forward s).stack ((VM.ds_pointer_forward s).sp - 1) = .ok lhs)
    (hdiv : [d0, d1, d2].getD id.val 0 = 0) :
    VM.ds_modulus id s = .error .zeroDivision := by
  simp only [VM.ds_modulus, h0, h1, h2, hl, hdiv]
  rw [if_pos trivial]

/-- C4 witness: the amended statement at the initial state, where every
hypothesis read yields 0 and the selected divisor is 0. -/
theorem C4_modulus_zero_divisor_witness :
    VM.ds_modulus 0 initVM = .error .zeroDivision :=
  C4_modulus_zero_divisor_raises 0 initVM 0 0 0 0
    (by decide) (by decide) (by decide) (by decide) (by decide)

/-! ## C5 -/

theorem pyIntBase2_of_bits (ts : List String) (hne : ts ≠ []) :
    pyIntBase2 (String.mk (ts.map (fun arg => if arg = "FIZZ" then '0' else '1'))) =
      .ok ((binListVal ts : Nat) : Int) := by
  unfold pyIntBase2 binListVal
  have htl : (String.mk (ts.map (fun arg => if arg = "FIZZ" then '0' else '1'))).toList
      = ts.map (fun arg => if arg = "FIZZ" then '0' else '1') := rfl
  rw [htl]
  rw [if_pos]
  · rw [List.foldl_map]
    congr 2
    apply List.foldl_ext
    intro acc t _
    by_cases ht : t = "FIZZ" <;> simp [ht]
  · rw [Bool.and_eq_true]
    refine ⟨?_, ?_⟩
    · cases ts with
      | nil => exact absurd rfl hne
      | cons hd tl => rfl
    · rw [List.all_eq_true]
      intro c hc
      obtain ⟨x, _, rfl⟩ := List.mem_map.mp hc
      by_cases hx : x = "FIZZ" <;> simp [hx]

/-- C5 counterexample: in a store-literal-binary line the first argument
token contributes no digit. With one argument (BUZZ FIZZBUZZ FIZZ) the
digit string is empty and `int("", 2)` raises `ValueError` instead of
storing the value 0 of the claimed 1-digit string; with two arguments
(BUZZ FIZZBUZZ BUZZ FIZZ) only the trailing FIZZ becomes a digit, so 0 is
stored where the claim's 2-digit reading BUZZ FIZZ = "10" would store 2. -/
theorem C5_store_binary_counterexample :
    run_tokens ["BUZZ", "FIZZBUZZ", "FIZZ"] initVM = .error .valueError ∧
    run_tokens ["BUZZ", "FIZZBUZZ", "BUZZ", "FIZZ"] { initVM with stack := [7] } =
      .ok { initVM with stack := [0], ip := 1 } ∧
    (0 : Int) ≠ ((binListVal ["BUZZ", "FIZZ"] : Nat) : Int) := by decide

/-- C5 amended: in a store-literal-binary line with at least two argument
tokens, the first argument token is ignored and each remaining argument
token contributes one binary digit (FIZZ is digit 0, any other vocabulary
token digit 1); the unsigned value of that digit string is stored into
`stack[sp]`. (With exactly one argument the empty digit string makes the
conversion raise `ValueError` instead.) -/
theorem C5_store_binary_amended (s : VMState) (a b : String) (rest : List String)
    (hsp0 : 0 ≤ s.sp) (hsp1 : s.sp < (s.stack.length : Int))
    (ha : vocabNum a ≠ none) (hb : vocabNum b ≠ none)
    (hrest : ∀ x ∈ rest, vocabNum x ≠ none) :
    run_tokens ("BUZZ" :: "FIZZBUZZ" :: a :: b :: rest) s =
      .ok { s with stack := s.stack.set s.sp.toNat ((binListVal (b :: rest) : Nat) : Int),
                   ip := s.ip + 1 } := by
  have hall : ∀ x ∈ (("BUZZ" :: "FIZZBUZZ" :: a :: b :: rest).drop 2), vocabNum x ≠ none := by
    intro x hx
    rcases List.mem_cons.mp hx with rfl | hx1
    · exact ha
    rcases List.mem_cons.mp hx1 with rfl | hx2
    · exact hb
    · exact hrest x hx2
  have hchk : checkArgs 2 3 ((("BUZZ" :: "FIZZBUZZ" :: a :: b :: rest).drop 2).length) 0
      (("BUZZ" :: "FIZZBUZZ" :: a :: b :: rest).drop 2) = .ok () :=
    checkArgs_all_vocab 2 3 _ 0 _ hall
  have hbits2 : pyIntBase2 (String.mk
      (((("BUZZ" :: "FIZZBUZZ" :: a :: b :: rest).drop 2).drop 1).map
        (fun arg => if arg = "FIZZ" then '0' else '1'))) =
      .ok ((binListVal (b :: rest) : Nat) : Int) :=
    pyIntBase2_of_bits (b :: rest) (List.cons_ne_nil b rest)
  have hset : pySet s.stack s.sp ((binListVal (b :: rest) : Nat) : Int) =
      .ok (s.stack.set s.sp.toNat ((binListVal (b :: rest) : Nat) : Int)) :=
    pySet_ok _ hsp0 hsp1
  have hio : VM.io_store_binary (String.mk
      (((("BUZZ" :: "FIZZBUZZ" :: a :: b :: rest).drop 2).drop 1).map
        (fun arg => if arg = "FIZZ" then '0' else '1'))) s =
      .ok { s with stack := s.stack.set s.sp.toNat ((binListVal (b :: rest) : Nat) : Int),
                   ip := s.ip + 1 } := by
    simp only [VM.io_store_binary, hbits2, hset]
  conv_lhs => whnf
  rw [hchk]
  conv_lhs => whnf
  rw [hio]
  conv_lhs => whnf

/-- C5 witness: the amended statement on the line BUZZ FIZZBUZZ BUZZ BUZZ
FIZZ over a one-cell stack holding 7 — the digit string is "10" (from the
last two tokens only) and 2 is stored. -/
theorem C5_store_binary_amended_witness :
    run_tokens ["BUZZ", "FIZZBUZZ", "BUZZ", "BUZZ", "FIZZ"] { initVM with stack := [7] } =
      .ok { initVM with stack := [2], ip := 1 } :=
  (C5_store_binary_amended { initVM with stack := [7] } "BUZZ" "BUZZ" ["FIZZ"]
    (by decide) (by decide) (by decide) (by decide) (by decide)).trans (by decide)

/-! ## C7 -/

/-- C7: declaring a label that already exists in the label table is a
silent no-op on the table — the entry stays bound to its first recorded
ip value — and the only effect is the ordinary `ip += 1` advance
(`fc_create_label` is total, so no error is possible). -/
theorem C7_label_redeclare_is_noop (label : String) (s : VMState) (v : Int)
    (h : s.labels.lookup label = some v) :
    VM.fc_create_label label s = { s with ip := s.ip + 1 } ∧
    (VM.fc_create_label label s).labels.lookup label = some v := by
  constructor <;> simp [VM.fc_create_label, h]

/-- C7 witness: redeclaring the label L, first bound to ip 5, from ip 9
leaves L bound to 5. -/
theorem C7_label_redeclare_is_noop_witness :
    VM.fc_create_label "L" { initVM with labels := [("L", 5)], ip := 9 } =
      { initVM with labels := [("L", 5)], ip := 10 } ∧
    (VM.fc_create_label "L" { initVM with labels := [("L", 5)], ip := 9 }).labels.lookup "L" =
      some 5 := by
  have h := C7_label_redeclare_is_noop "L" { initVM with labels := [("L", 5)], ip := 9 } 5
    (by decide)
  exact ⟨h.1.trans (by decide), h.2⟩

/-! ## C9 -/

/-- C9: advance then retreat restores the data pointer to its prior value
(also when the advance grew the stack), while the stack length is not
restored: exactly when the advance was growth-causing (sp + 1 reaching
the old length) the stack ends up one cell longer, otherwise unchanged. -/
theorem C9_advance_retreat_round_trip (s : VMState) (h0 : 0 ≤ s.sp) :
    (VM.ds_pointer_backward (VM.ds_pointer_forward s)).sp = s.sp ∧
    (VM.ds_pointer_backward (VM.ds_pointer_forward s)).stack.length =
      (if s.sp + 1 = (s.stack.length : Int) then s.stack.length + 1 else s.stack.length) := by
  unfold VM.ds_pointer_forward VM.ds_pointer_backward
  constructor
  · simp
    omega
  · split <;> rename_i hcond <;> simp
    · rw [if_pos hcond]
      simp
    · rw [if_neg hcond]

/-- C9 witness: from the initial state (sp 0, one-cell stack) the advance
grows the stack to two cells and the retreat returns sp to 0. -/
theorem C9_advance_retreat_round_trip_witness :
    (VM.ds_pointer_backward (VM.ds_pointer_forward initVM)).sp = initVM.sp ∧
    (VM.ds_pointer_backward (VM.ds_pointer_forward initVM)).stack.length =
      (if initVM.sp + 1 = (initVM.stack.length : Int) then initVM.stack.length + 1
       else initVM.stack.length) :=
  C9_advance_retreat_round_trip initVM (by decide)

/-! ## C8 -/

/-- C8: the read-value operation consumes one input line and stores into
`stack[sp]` exactly the value the spec describes: the integer value when
the text parses as an integer, 0 when it parses as a float-looking value,
the code point when the text is exactly one character, and 0 otherwise
(`readValueSpec` is that case order verbatim). -/
theorem C8_read_value_follows_spec (s : VMState) (text : String) (rest : List String)
    (hin : s.stdin = text :: rest) :
    VM.io_character_input s =
      (pySet s.stack s.sp (readValueSpec text)).map
        (fun stack => { s with stack := stack, stdin := rest, ip := s.ip + 1 }) := by
  unfold VM.io_character_input
  rw [hin]
  show (match pySet s.stack s.sp (readValueSpec text) with
    | Except.error e => (Except.error e : Except Err VMState)
    | Except.ok stack => Except.ok { s with stack := stack, stdin := rest, ip := s.ip + 1 }) = _
  cases pySet s.stack s.sp (readValueSpec text) <;> rfl

/-- C8 witness: reading the line "65" from the initial state stores the
integer 65. -/
theorem C8_read_value_follows_spec_witness :
    VM.io_character_input { initVM with stdin := ["65"] } =
      .ok { initVM with stack := [65], stdin := [], ip := 1 } :=
  (C8_read_value_follows_spec { initVM with stdin := ["65"] } "65" [] rfl).trans (by decide)

/-! ## C6 -/

theorem forward_stack_length (s : VMState) :
    ((VM.ds_pointer_forward s).stack.length : Int) =
      if s.sp + 1 = (s.stack.length : Int) then (s.stack.length : Int) + 1
      else (s.stack.length : Int) := by
  unfold VM.ds_pointer_forward
  split <;> rename_i hc <;> simp [hc]

theorem forward_pres (s : VMState) (hI : DsInv s) :
    DsInv (VM.ds_pointer_forward s) ∧ s.stack.length ≤ (VM.ds_pointer_forward s).stack.length := by
  obtain ⟨h1, h2, h3, h4, h5, h6⟩ := hI
  have hsp : (VM.ds_pointer_forward s).sp = s.sp + 1 := rfl
  have hr1 : (VM.ds_pointer_forward s).stored_sp1 = s.stored_sp1 := rfl
  have hr2 : (VM.ds_pointer_forward s).stored_sp2 = s.stored_sp2 := rfl
  have hlen := forward_stack_length s
  unfold DsInv
  rw [hsp, hr1, hr2]
  by_cases hc : s.sp + 1 = (s.stack.length : Int)
  · rw [if_pos hc] at hlen
    refine ⟨⟨by omega, by omega, h3, by omega, h5, by omega⟩, by omega⟩
  · rw [if_neg hc] at hlen
    refine ⟨⟨by omega, by omega, h3, by omega, h5, by omega⟩, by omega⟩

theorem execDsOp_preserves (op : DsOp) (s s' : VMState) (hI : DsInv s)
    (h : execDsOp op s = .ok s') :
    DsInv s' ∧ s.stack.length ≤ s'.stack.length := by
  cases op with
  | forward =>
    injection h with h
    subst h
    exact forward_pres s hI
  | backward =>
    injection h with h
    subst h
    obtain ⟨h1, h2, h3, h4, h5, h6⟩ := hI
    exact ⟨⟨by simp [VM.ds_pointer_backward], by simp [VM.ds_pointer_backward] <;> omega,
      h3, h4, h5, h6⟩, le_refl _⟩
  | duplicate =>
    simp only [execDsOp, VM.ds_duplicate_element] at h
    split at h
    · simp at h
    rename_i v hv
    split at h
    · simp at h
    rename_i st hst
    cases h
    obtain ⟨⟨f1, f2, f3, f4, f5, f6⟩, flen⟩ := forward_pres s hI
    have hlen := pySet_length hst
    refine ⟨⟨?_, ?_, ?_, ?_, ?_, ?_⟩, ?_⟩ <;> (try simp) <;> omega
  | add id =>
    simp only [execDsOp, VM.ds_add] at h
    split at h
    · simp at h
    rename_i a1 hg1
    split at h
    · simp at h
    rename_i a2 hg2
    split at h
    · simp at h
    rename_i cur hg3
    split at h
    · simp at h
    rename_i st hst
    cases h
    have hlen := pySet_length hst
    obtain ⟨h1, h2, h3, h4, h5, h6⟩ := hI
    refine ⟨⟨?_, ?_, ?_, ?_, ?_, ?_⟩, ?_⟩ <;> (try simp) <;> omega
  | subtract id =>
    simp only [execDsOp, VM.ds_subtract] at h
    split at h
    · simp at h
    rename_i a1 hg1
    split at h
    · simp at h
    rename_i a2 hg2
    split at h
    · simp at h
    rename_i cur hg3
    split at h
    · simp at h
    rename_i st hst
    cases h
    have hlen := pySet_length hst
    obtain ⟨h1, h2, h3, h4, h5, h6⟩ := hI
    refine ⟨⟨?_, ?_, ?_, ?_, ?_, ?_⟩, ?_⟩ <;> (try simp) <;> omega
  | modulus id =>
    simp only [execDsOp, VM.ds_modulus] at h
    split at h
    · simp at h
    rename_i d0 hg0
    split at h
    · simp at h
    rename_i d1 hg1
    split at h
    · simp at h
    rename_i d2 hg2
    split at h
    · simp at h
    rename_i lhs hgl
    split at h
    · simp at h
    split at h
    · simp at h
    rename_i st hst
    cases h
    obtain ⟨⟨f1, f2, f3, f4, f5, f6⟩, flen⟩ := forward_pres s hI
    have hlen := pySet_length hst
    refine ⟨⟨?_, ?_, ?_, ?_, ?_, ?_⟩, ?_⟩ <;> (try simp) <;> omega
  | store id =>
    simp only [execDsOp, VM.ds_store] at h
    obtain ⟨h1, h2, h3, h4, h5, h6⟩ := hI
    split at h
    · cases h
      exact ⟨⟨h1, h2, h1, h2, h5, h6⟩, le_refl _⟩
    · split at h
      · cases h
        exact ⟨⟨h1, h2, h3, h4, h1, h2⟩, le_refl _⟩
      · cases h
        exact ⟨⟨h1, h2, h3, h4, h5, h6⟩, le_refl _⟩
  | seek id =>
    simp only [execDsOp, VM.ds_move_to] at h
    obtain ⟨h1, h2, h3, h4, h5, h6⟩ := hI
    split at h
    · cases h
      exact ⟨⟨h3, h4, h3, h4, h5, h6⟩, le_refl _⟩
    · split at h
      · cases h
        exact ⟨⟨h5, h6, h3, h4, h5, h6⟩, le_refl _⟩
      · cases h
        exact ⟨⟨h1, h2, h3, h4, h5, h6⟩, le_refl _⟩

theorem execSeq_preserves (ops : List DsOp) (s s' : VMState) (hI : DsInv s)
    (h : execSeq ops s = .ok s') :
    DsInv s' ∧ s.stack.length ≤ s'.stack.length := by
  induction ops generalizing s with
  | nil =>
    cases h
    exact ⟨hI, le_refl _⟩
  | cons op ops ih =>
    simp only [execSeq] at h
    split at h
    · simp at h
    rename_i s1 h1
    obtain ⟨hI1, hlen1⟩ := execDsOp_preserves op s s1 hI h1
    obtain ⟨hI2, hlen2⟩ := ih s1 hI1 h
    exact ⟨hI2, le_trans hlen1 hlen2⟩

/-- C6: after every sequence of tape/register operations (advance,
retreat, duplicate, add, subtract, modulus, store, seek) from the initial
state, the data pointer is nonnegative and the stack length strictly
exceeds it (length at least dp + 1), and the stack never shrinks over any
further sequence of operations. -/
theorem C6_tape_invariant (ops1 ops2 : List DsOp) (s1 s2 : VMState)
    (h1 : execSeq ops1 initVM = .ok s1) (h2 : execSeq ops2 s1 = .ok s2) :
    (0 ≤ s1.sp ∧ s1.sp + 1 ≤ (s1.stack.length : Int)) ∧
    s1.stack.length ≤ s2.stack.length := by
  have hI : DsInv initVM := by
    refine ⟨by decide, by decide, by decide, by decide, by decide, by decide⟩
  obtain ⟨hI1, _⟩ := execSeq_preserves ops1 initVM s1 hI h1
  obtain ⟨_, hlen⟩ := execSeq_preserves ops2 s1 s2 hI1 h2
  obtain ⟨a1, a2, _⟩ := hI1
  exact ⟨⟨a1, by omega⟩, hlen⟩

/-- C6 witness: advance then retreat from the initial state — after the
advance dp is 1 with a two-cell stack, and the retreat does not shrink
the stack. -/
theorem C6_tape_invariant_witness :
    (0 ≤ ({ initVM with sp := 1, stack := [0, 0], ip := 1 } : VMState).sp ∧
      ({ initVM with sp := 1, stack := [0, 0], ip := 1 } : VMState).sp + 1 ≤
        (({ initVM with sp := 1, stack := [0, 0], ip := 1 } : VMState).stack.length : Int)) ∧
    ({ initVM with sp := 1, stack := [0, 0], ip := 1 } : VMState).stack.length ≤
      ({ initVM with sp := 0, stack := [0, 0], ip := 2 } : VMState).stack.length :=
  C6_tape_invariant [DsOp.forward] [DsOp.backward]
    { initVM with sp := 1, stack := [0, 0], ip := 1 }
    { initVM with sp := 0, stack := [0, 0], ip := 2 }
    (by decide) (by decide)
